import Mathlib

/-!
# containerd supervisor: task handlers and their RPC front end

A shallow embedding of

* `supervisor/add_process.go` (`Supervisor.addProcess`),
* `supervisor/create.go` (`Supervisor.start`),
* `supervisor/update.go` (`Supervisor.updateContainer`, `Supervisor.updateProcess`),
* `api/grpc/server/server.go` (`CreateContainer`, `AddProcess`, `UpdateContainer`,
  `UpdateProcess`, `createAPIContainer`, `toUint32`).

Conventions.

* A Go `error` result is `Option Error` (`none` is `nil`).
* The runtime package is an external capability.  A handle (`Container`, `Process`) is a
  record holding, for every method, what that method answers; every method invocation
  made by a handler is appended to the handler's trace, in program order.
* Everything a supervisor handler does to the outside (adapter calls, channel sends,
  published events, metrics) is an `Effect` in the trace.
* An RPC handler reaches the supervisor only through `SendTask`; its model returns the
  tasks it sent and the supervisor as `SendTask` left it.
* `time.Now()` is a clock oracle `clock : Nat → Nat`; `clock k` is the value of the k-th
  `time.Now()` written in the handler, counted from 0.
* Types, constants and functions that the sources use but do not declare (package
  `runtime`, the protobuf `types`, the rest of package `supervisor`, platform files) are
  given with the fields the sources read or write, or taken as parameters.
* A channel that a task brings along (`StartResponse`, the error channel) is a `Chan`:
  its identity and its state as the handler finds it; a send on it follows Go's rule for
  send statements (`Chan.send`), so a handler can end blocked.  The queue `s.startTasks`
  belongs to the supervisor and is drained by its start workers; a send on it is an effect.
-/

namespace Containerd

/-! ## Values of the runtime package -/

/-- Go `runtime.State`, a string type. -/
abbrev State := String

/-- Modelled from the spec: the constant `runtime.Running` (package `runtime` is not part of
the sources read here); the spec gives the state name strings
"created", "running", "paused", "stopped". -/
def Running : State := "running"

/-- Modelled from the spec: the constant `runtime.Paused`, state name string "paused". -/
def Paused : State := "paused"

/-- Modelled from the spec: the constant `runtime.Created`, state name string "created". -/
def Created : State := "created"

/-- Modelled from the spec: the constant `runtime.Stopped`, state name string "stopped". -/
def Stopped : State := "stopped"

/-- An error value produced outside the supervisor and the RPC server: by the runtime
adapter or by the process monitor.  Its only observable is its message. -/
structure ExternalError where
  msg : String
deriving DecidableEq, Repr

/-- Go `error` values seen by the handlers.  An error made by a handler's own
`fmt.Errorf` or `errors.New` call is a fresh value, distinct from every error handed over
by the adapter or the monitor, which is why those are a constructor of their own. -/
inductive Error where
  /-- Sentinel `supervisor.ErrContainerNotFound`. -/
  | ErrContainerNotFound
  /-- Sentinel `supervisor.ErrProcessNotFound`. -/
  | ErrProcessNotFound
  /-- Sentinel `supervisor.ErrUnknownContainerStatus`. -/
  | ErrUnknownContainerStatus
  /-- Sentinel `supervisor.errDeferredResponse`. -/
  | errDeferredResponse
  /-- The value of `errors.New(text)`. -/
  | New (text : String)
  /-- The value of `fmt.Errorf` after formatting, `text` being the formatted message. -/
  | Errorf (text : String)
  /-- The value of `grpc.Errorf(code, format)` called with no further argument; `format`
  is the format string handed over, which `grpc.Errorf` still formats. -/
  | grpcErrorf (code : String) (format : String)
  /-- An error of the adapter or of the monitor, handed on unchanged. -/
  | external (e : ExternalError)
deriving DecidableEq, Repr

/-- Conversion of an adapter result `error` to the handler result. -/
def verbatim : Option ExternalError → Option Error
  | none => none
  | some e => some (Error.external e)

/-- Go `specs.ProcessSpec` as far as the server fills it; `user` stands for the
platform specific user fields. -/
structure ProcessSpec where
  Terminal : Bool
  Args : List String
  Env : List String
  Cwd : String
  user : String
deriving DecidableEq, Repr

/-- Go `runtime.Stdio`, with the fields `createAPIContainer` reads. -/
structure Stdio where
  Stdin : String
  Stdout : String
  Stderr : String
deriving DecidableEq, Repr

/-- Go `runtime.Resource`, the fields the server fills. -/
structure Resource where
  CPUShares : Int
  BlkioWeight : Nat
  CPUPeriod : Int
  CPUQuota : Int
  CpusetCpus : String
  CpusetMems : String
  KernelMemory : Int
  Memory : Int
  MemoryReservation : Int
  MemorySwap : Int
deriving DecidableEq, Repr

/-- A `runtime.Process` handle: what each of its methods answers. -/
structure Process where
  ID : String
  SystemPid : Int
  Spec : ProcessSpec
  Stdio : Stdio
  CloseStdin : Option ExternalError
  Resize : Int → Int → Option ExternalError

/-- A `runtime.Container` handle: what each of its methods answers. -/
structure Container where
  ID : String
  Path : String
  Labels : List String
  Runtime : String
  State : State
  Exec : String → ProcessSpec → Stdio → Except ExternalError Process
  Pause : Option ExternalError
  Resume : Option ExternalError
  UpdateResources : Resource → Option ExternalError
  Processes : Except ExternalError (List Process)
  Pids : Except ExternalError (List Int)

/-- Go `runtime.ContainerOpts`, the argument of `runtime.New`. -/
structure ContainerOpts where
  Root : String
  ID : String
  Bundle : String
  Runtime : String
  RuntimeArgs : List String
  Shim : String
  Labels : List String
  NoPivotRoot : Bool
  Timeout : Nat
deriving DecidableEq, Repr

/-! ## Supervisor data -/

/-- A Go channel value as a handler finds it: its identity, whether it is the nil channel,
whether it has been closed, its capacity, the number of values it buffers, and whether a
goroutine is receiving from it. -/
structure Chan where
  id : Nat
  isNil : Bool
  closed : Bool
  cap : Nat
  len : Nat
  receiver : Bool
deriving DecidableEq, Repr

/-- What a send statement does. -/
inductive SendResult where
  /-- The value is handed over and the sender goes on. -/
  | completes
  /-- The sender waits for ever. -/
  | blocks
  /-- The send panics. -/
  | panics
deriving DecidableEq, Repr

/-- Go's rule for the send statement `c <- v`: a send on a nil channel blocks for ever, a
send on a closed channel panics, a send on a buffered channel goes on when the buffer has
room, and any other send goes on only when a receiver is there. -/
def Chan.send (c : Chan) : SendResult :=
  if c.isNil then .blocks
  else if c.closed then .panics
  else if c.len < c.cap ∨ c.receiver then .completes
  else .blocks

/-- Go `make(chan T, n)`: a new, open, empty channel of capacity `n`; `id` is its
identity. -/
def makeChan (id n : Nat) : Chan :=
  { id := id, isNil := false, closed := false, cap := n, len := 0, receiver := false }

/-- Go `supervisor.StartResponse`; `Container` is `nil` in `StartResponse{}`. -/
structure StartResponse where
  Container : Option Container

/-- Go `supervisor.Event`; the field `Type` is written `Type_`. -/
structure Event where
  ID : String
  Type_ : String
  Timestamp : Nat
  PID : String
  Status : Int
deriving DecidableEq, Repr

/-- Modelled from the spec: the constant `supervisor.StateStartProcess` (declared in a file
of package `supervisor` that is not among the sources); event type string "start-process". -/
def StateStartProcess : String := "start-process"

/-- Modelled from the spec: the constant `supervisor.StatePause`, event type string "pause". -/
def StatePause : String := "pause"

/-- Modelled from the spec: the constant `supervisor.StateResume`, event type string "resume". -/
def StateResume : String := "resume"

/-- Go `supervisor.baseTask` (declared outside the sources): the completion channel that
`ErrorCh()` returns. -/
structure baseTask where
  errCh : Chan
deriving DecidableEq, Repr

/-- Modelled from the spec: the struct `supervisor.platformStartTask` embedded in
`StartTask`, declared in a platform file that is not among the sources; the spec gives a
container an optional checkpoint descriptor among its creation options. -/
structure platformStartTask where
  CheckpointDir : String
  Checkpoint : Option String
deriving DecidableEq, Repr

/-- Go `supervisor.StartTask` (create.go). -/
structure StartTask extends baseTask, platformStartTask where
  ID : String
  BundlePath : String
  Runtime : String
  Stdout : String
  Stderr : String
  Stdin : String
  StartResponse : Chan
  Labels : List String
  NoPivotRoot : Bool
deriving DecidableEq, Repr

/-- Go `supervisor.AddProcessTask` (add_process.go); `ProcessSpec` is a pointer. -/
structure AddProcessTask extends baseTask where
  ID : String
  PID : String
  Runtime : String
  Stdout : String
  Stderr : String
  Stdin : String
  ProcessSpec : Option ProcessSpec
  StartResponse : Chan
deriving DecidableEq, Repr

/-- Go `supervisor.UpdateTask` (update.go); `Resources` is a pointer. -/
structure UpdateTask extends baseTask where
  ID : String
  Runtime : String
  State : State
  Resources : Option Resource
deriving DecidableEq, Repr

/-- Go `supervisor.UpdateProcessTask` (update.go). -/
structure UpdateProcessTask extends baseTask where
  ID : String
  PID : String
  CloseStdin : Bool
  Width : Int
  Height : Int
deriving DecidableEq, Repr

/-- The record `supervisor.startTask` built by `start` for the start workers.
`CheckpointPath` is the field written by `setTaskCheckpoint`. -/
structure startTask where
  Err : Chan
  Container : Container
  StartResponse : Chan
  Stdin : String
  Stdout : String
  Stderr : String
  CheckpointPath : String

/-- Go `supervisor.containerInfo`. -/
structure containerInfo where
  container : Container

/-- The fields of `supervisor.Supervisor` the handlers read or write.
`containers` is the Go map `map[string]*containerInfo`. -/
structure Supervisor where
  stateDir : String
  runtime : String
  runtimeArgs : List String
  shim : String
  timeout : Nat
  containers : String → Option containerInfo

/-- What a handler does to the outside, one entry per action. -/
inductive Effect where
  /-- Call of `runtime.New(opts)`. -/
  | runtimeNew (opts : ContainerOpts)
  /-- Call of `c.Runtime()`. -/
  | Runtime (c : Container)
  /-- Call of `c.Exec(pid, spec, stdio)`. -/
  | Exec (c : Container) (pid : String) (spec : ProcessSpec) (stdio : Stdio)
  /-- Call of `c.Pause()`. -/
  | Pause (c : Container)
  /-- Call of `c.Resume()`. -/
  | Resume (c : Container)
  /-- Call of `c.UpdateResources(r)`. -/
  | UpdateResources (c : Container) (r : Resource)
  /-- Call of `c.Processes()`. -/
  | Processes (c : Container)
  /-- Call of `p.ID()`. -/
  | ProcessID (p : Process)
  /-- Call of `p.CloseStdin()`. -/
  | CloseStdin (p : Process)
  /-- Call of `p.Resize(w, h)`. -/
  | Resize (p : Process) (w h : Int)
  /-- Call of `s.monitorProcess(p)`. -/
  | monitorProcess (p : Process)
  /-- Call of `s.notifySubscribers(e)`. -/
  | notifySubscribers (e : Event)
  /-- Completed send of `r` on a `StartResponse` channel. -/
  | sendStartResponse (ch : Chan) (r : StartResponse)
  /-- Send of a start record on `s.startTasks`. -/
  | sendStartTask (task : startTask)
  /-- Call of `ContainersCounter.Inc(n)`. -/
  | ContainersCounterInc (n : Nat)
  /-- Call of `ExecProcessTimer.UpdateSince(start)`. -/
  | ExecProcessTimerUpdateSince (start : Nat)
  /-- Call of `ContainerCreateTimer.UpdateSince(start)`. -/
  | ContainerCreateTimerUpdateSince (start : Nat)

/-- How a handler call ends: it returns an `error`, it panics, or it never returns
because it waits for ever on a channel. -/
inductive Outcome where
  | returned (err : Option Error)
  | panicked
  | blocked
deriving DecidableEq, Repr

/-- Result of running a handler: the supervisor afterwards, the task afterwards (handlers
write to the task they are given), how the call ended and what it did. -/
structure Result (τ : Type) where
  sv : Supervisor
  task : τ
  out : Outcome
  trace : List Effect

/-! ## Observations on a trace -/

/-- The events published, in order. -/
def events : List Effect → List Event
  | [] => []
  | Effect.notifySubscribers e :: tr => e :: events tr
  | _ :: tr => events tr

/-- The start responses sent, with their channel, in order. -/
def startResponses : List Effect → List (Chan × StartResponse)
  | [] => []
  | Effect.sendStartResponse ch r :: tr => (ch, r) :: startResponses tr
  | _ :: tr => startResponses tr

/-- The start records handed to the start workers, in order. -/
def startTasks : List Effect → List startTask
  | [] => []
  | Effect.sendStartTask task :: tr => task :: startTasks tr
  | _ :: tr => startTasks tr

/-- The processes registered with the monitor, in order. -/
def monitored : List Effect → List Process
  | [] => []
  | Effect.monitorProcess p :: tr => p :: monitored tr
  | _ :: tr => monitored tr

/-- The `Exec` calls, in order. -/
def execCalls : List Effect → List (Container × String × ProcessSpec × Stdio)
  | [] => []
  | Effect.Exec c pid spec stdio :: tr => (c, pid, spec, stdio) :: execCalls tr
  | _ :: tr => execCalls tr

/-- The containers `Pause` was called on, in order. -/
def pauseCalls : List Effect → List Container
  | [] => []
  | Effect.Pause c :: tr => c :: pauseCalls tr
  | _ :: tr => pauseCalls tr

/-- The containers `Resume` was called on, in order. -/
def resumeCalls : List Effect → List Container
  | [] => []
  | Effect.Resume c :: tr => c :: resumeCalls tr
  | _ :: tr => resumeCalls tr

/-- The `UpdateResources` calls, in order. -/
def updateResourcesCalls : List Effect → List (Container × Resource)
  | [] => []
  | Effect.UpdateResources c r :: tr => (c, r) :: updateResourcesCalls tr
  | _ :: tr => updateResourcesCalls tr

/-- The processes `CloseStdin` was called on, in order. -/
def closeStdinCalls : List Effect → List Process
  | [] => []
  | Effect.CloseStdin p :: tr => p :: closeStdinCalls tr
  | _ :: tr => closeStdinCalls tr

/-- The `Resize` calls, in order. -/
def resizeCalls : List Effect → List (Process × Int × Int)
  | [] => []
  | Effect.Resize p w h :: tr => (p, w, h) :: resizeCalls tr
  | _ :: tr => resizeCalls tr

/-- The message built by `fmt.Errorf("Expect runtime:%s, got:%s", a, b)`. -/
def expectRuntimeMsg (a b : String) : String :=
  "Expect runtime:" ++ a ++ ", got:" ++ b

/-! ## supervisor/update.go -/

/-- Go `func (s *Supervisor) updateContainer(t *UpdateTask) error`. -/
def Supervisor.updateContainer (s : Supervisor) (clock : Nat → Nat) (t : UpdateTask) :
    Result UpdateTask :=
  match s.containers t.ID with
  | none => ⟨s, t, .returned (some .ErrContainerNotFound), []⟩
  | some i =>
    let container := i.container
    let t := if t.Runtime = "" then { t with Runtime := s.runtime } else t
    if container.Runtime ≠ t.Runtime then
      ⟨s, t, .returned (some (.Errorf (expectRuntimeMsg container.Runtime t.Runtime))),
        [.Runtime container, .Runtime container]⟩
    else if t.State ≠ "" then
      if t.State = Running then
        match container.Resume with
        | some err =>
          ⟨s, t, .returned (some (.external err)), [.Runtime container, .Resume container]⟩
        | none =>
          ⟨s, t, .returned none,
            [.Runtime container, .Resume container,
             .notifySubscribers
               { ID := t.ID, Type_ := StateResume, Timestamp := clock 0, PID := "", Status := 0 }]⟩
      else if t.State = Paused then
        match container.Pause with
        | some err =>
          ⟨s, t, .returned (some (.external err)), [.Runtime container, .Pause container]⟩
        | none =>
          ⟨s, t, .returned none,
            [.Runtime container, .Pause container,
             .notifySubscribers
               { ID := t.ID, Type_ := StatePause, Timestamp := clock 0, PID := "", Status := 0 }]⟩
      else
        ⟨s, t, .returned (some .ErrUnknownContainerStatus), [.Runtime container]⟩
    else
      match t.Resources with
      | some r =>
        ⟨s, t, .returned (verbatim (container.UpdateResources r)),
          [.Runtime container, .UpdateResources container r]⟩
      | none => ⟨s, t, .returned none, [.Runtime container]⟩

/-- The loop `for _, p := range processes` of `updateProcess`: the first process whose
`ID()` is `PID`, and the `ID()` calls made until the `break`. -/
def findProcess (PID : String) : List Process → Option Process × List Effect
  | [] => (none, [])
  | p :: ps =>
    if p.ID = PID then (some p, [.ProcessID p])
    else ((findProcess PID ps).1, .ProcessID p :: (findProcess PID ps).2)

/-- Go `func (s *Supervisor) updateProcess(t *UpdateProcessTask) error`. -/
def Supervisor.updateProcess (s : Supervisor) (t : UpdateProcessTask) :
    Result UpdateProcessTask :=
  match s.containers t.ID with
  | none => ⟨s, t, .returned (some .ErrContainerNotFound), []⟩
  | some i =>
    match i.container.Processes with
    | .error err => ⟨s, t, .returned (some (.external err)), [.Processes i.container]⟩
    | .ok processes =>
      let tr := .Processes i.container :: (findProcess t.PID processes).2
      match (findProcess t.PID processes).1 with
      | none => ⟨s, t, .returned (some .ErrProcessNotFound), tr⟩
      | some process =>
        -- the statements after the `CloseStdin` block, run with the trace so far
        let rest : List Effect → Result UpdateProcessTask := fun tr1 =>
          if t.Width > 0 ∨ t.Height > 0 then
            match process.Resize t.Width t.Height with
            | some err =>
              ⟨s, t, .returned (some (.external err)),
                tr1 ++ [.Resize process t.Width t.Height]⟩
            | none => ⟨s, t, .returned none, tr1 ++ [.Resize process t.Width t.Height]⟩
          else
            ⟨s, t, .returned none, tr1⟩
        if t.CloseStdin then
          match process.CloseStdin with
          | some err => ⟨s, t, .returned (some (.external err)), tr ++ [.CloseStdin process]⟩
          | none => rest (tr ++ [.CloseStdin process])
        else
          rest tr

/-! ## supervisor/add_process.go -/

/-- Go `func (s *Supervisor) addProcess(t *AddProcessTask) error`.
`NewStdio` is the function `runtime.NewStdio` and `monitorProcess` is what
`s.monitorProcess` answers; the code of neither is among the sources.  The handler
dereferences `t.ProcessSpec` and sends on `t.StartResponse`. -/
def Supervisor.addProcess (s : Supervisor) (NewStdio : String → String → String → Stdio)
    (monitorProcess : Process → Option ExternalError)
    (clock : Nat → Nat) (t : AddProcessTask) : Result AddProcessTask :=
  let start := clock 0
  match s.containers t.ID with
  | none => ⟨s, t, .returned (some .ErrContainerNotFound), []⟩
  | some ci =>
    let t := if t.Runtime = "" then { t with Runtime := s.runtime } else t
    if ci.container.Runtime ≠ t.Runtime then
      ⟨s, t, .returned (some (.Errorf (expectRuntimeMsg ci.container.Runtime t.Runtime))),
        [.Runtime ci.container, .Runtime ci.container]⟩
    else
      match t.ProcessSpec with
      | none => ⟨s, t, .panicked, [.Runtime ci.container]⟩
      | some spec =>
        let stdio := NewStdio t.Stdin t.Stdout t.Stderr
        let tr := [.Runtime ci.container, .Exec ci.container t.PID spec stdio]
        match ci.container.Exec t.PID spec stdio with
        | .error err => ⟨s, t, .returned (some (.external err)), tr⟩
        | .ok process =>
          match monitorProcess process with
          | some err =>
            ⟨s, t, .returned (some (.external err)), tr ++ [.monitorProcess process]⟩
          | none =>
            let tr := tr ++ [.monitorProcess process, .ExecProcessTimerUpdateSince start]
            match t.StartResponse.send with
            | .blocks => ⟨s, t, .blocked, tr⟩
            | .panics => ⟨s, t, .panicked, tr⟩
            | .completes =>
              ⟨s, t, .returned none,
                tr ++ [.sendStartResponse t.StartResponse { Container := none },
                       .notifySubscribers
                         { Timestamp := clock 1, Type_ := StateStartProcess, PID := t.PID,
                           ID := t.ID, Status := 0 }]⟩

/-! ## supervisor/create.go -/

/-- Go `func (s *Supervisor) start(t *StartTask) error`.
`runtimeNew` is what `runtime.New` answers.  `setTaskCheckpoint` is the platform method
`(*startTask).setTaskCheckpoint`, whose code is not among the sources: it is given the
task and yields the checkpoint path it stores in the start record.  `s.startTasks` is
the supervisor's own queue, which its start workers drain. -/
def Supervisor.start (s : Supervisor)
    (runtimeNew : ContainerOpts → Except ExternalError Container)
    (setTaskCheckpoint : StartTask → String)
    (clock : Nat → Nat) (t : StartTask) : Result StartTask :=
  let start := clock 0
  let clientRuntime := if t.Runtime ≠ "" then t.Runtime else s.runtime
  let opts : ContainerOpts :=
    { Root := s.stateDir, ID := t.ID, Bundle := t.BundlePath, Runtime := clientRuntime,
      RuntimeArgs := s.runtimeArgs, Shim := s.shim, Labels := t.Labels,
      NoPivotRoot := t.NoPivotRoot, Timeout := s.timeout }
  match runtimeNew opts with
  | .error err => ⟨s, t, .returned (some (.external err)), [.runtimeNew opts]⟩
  | .ok container =>
    let s1 : Supervisor :=
      { s with containers := fun k => if k = t.ID then some { container := container }
                                      else s.containers k }
    let task : startTask :=
      { Err := t.errCh, Container := container, StartResponse := t.StartResponse,
        Stdin := t.Stdin, Stdout := t.Stdout, Stderr := t.Stderr, CheckpointPath := "" }
    let task := { task with CheckpointPath := setTaskCheckpoint t }
    ⟨s1, t, .returned (some .errDeferredResponse),
      [.runtimeNew opts, .ContainersCounterInc 1, .sendStartTask task,
       .ContainerCreateTimerUpdateSince start]⟩

/-! ## api/grpc/server/server.go -/

/-- Go `types.CreateContainerRequest`.  `Checkpoint` and `CheckpointDir` are read only by
the platform function `createContainerConfigCheckpoint`. -/
structure CreateContainerRequest where
  Id : String
  BundlePath : String
  Checkpoint : String
  Stdin : String
  Stdout : String
  Stderr : String
  Labels : List String
  NoPivotRoot : Bool
  CheckpointDir : String
deriving DecidableEq, Repr

/-- Go `types.Process`; `user` stands for the platform specific user fields. -/
structure ApiProcess where
  Pid : String
  SystemPid : Nat
  Terminal : Bool
  Args : List String
  Env : List String
  Cwd : String
  Stdin : String
  Stdout : String
  Stderr : String
  user : String
deriving DecidableEq, Repr

/-- Go `types.Container`. -/
structure ApiContainer where
  Id : String
  BundlePath : String
  Processes : List ApiProcess
  Labels : List String
  Status : String
  Pids : List Nat
  Runtime : String
deriving DecidableEq, Repr

/-- Go `types.CreateContainerResponse`. -/
structure CreateContainerResponse where
  Container : ApiContainer
deriving DecidableEq, Repr

/-- Go `types.AddProcessRequest`; `user` stands for the platform specific user fields. -/
structure AddProcessRequest where
  Id : String
  Terminal : Bool
  user : String
  Args : List String
  Env : List String
  Cwd : String
  Pid : String
  Stdin : String
  Stdout : String
  Stderr : String
deriving DecidableEq, Repr

/-- Go `types.UpdateResource`, unsigned integer fields as naturals. -/
structure UpdateResource where
  BlkioWeight : Nat
  CpuShares : Nat
  CpuPeriod : Nat
  CpuQuota : Nat
  CpusetCpus : String
  CpusetMems : String
  MemoryLimit : Nat
  MemorySwap : Nat
  MemoryReservation : Nat
  KernelMemoryLimit : Nat
deriving DecidableEq, Repr

/-- Go `types.UpdateContainerRequest`; `Resources` is a pointer. -/
structure UpdateContainerRequest where
  Id : String
  Status : String
  Resources : Option UpdateResource
deriving DecidableEq, Repr

/-- Go `types.UpdateProcessRequest`; `Width` and `Height` are `uint32`. -/
structure UpdateProcessRequest where
  Id : String
  Pid : String
  CloseStdin : Bool
  Width : Nat
  Height : Nat
deriving DecidableEq, Repr

/-- How an RPC handler ends: it returns `(response, error)`, or it panics. -/
inductive RpcOutcome (ρ : Type) where
  | returned (resp : Option ρ) (err : Option Error)
  | panicked

/-- Result of an RPC handler: how it ended, the supervisor afterwards and the tasks handed
to `SendTask`, in order. -/
structure Rpc (ρ τ : Type) where
  out : RpcOutcome ρ
  sv : Supervisor
  sent : List τ

/-- Go conversion `int64(x)` of an unsigned value. -/
def int64 (x : Nat) : Int :=
  if x % 2 ^ 64 < 2 ^ 63 then (x % 2 ^ 64 : Nat) else ((x % 2 ^ 64 : Nat) : Int) - 2 ^ 64

/-- Go conversion `uint16(x)` of an unsigned value. -/
def uint16 (x : Nat) : Nat := x % 2 ^ 16

/-- Go conversion `uint32(i)` of an `int`. -/
def uint32 (i : Int) : Nat := (i % 2 ^ 32).toNat

/-- Go `func toUint32(its []int) []uint32`. -/
def toUint32 : List Int → List Nat
  | [] => []
  | i :: its => uint32 i :: toUint32 its

/-- Go `func createAPIContainer(c runtime.Container, getPids bool) (*types.Container, error)`;
the result is either `(nil, err)` or `(container, nil)`.
`setUserFieldsInProcess` is platform code that is not among the sources. -/
def createAPIContainer (setUserFieldsInProcess : ApiProcess → ProcessSpec → ApiProcess)
    (c : Container) (getPids : Bool) : Except Error ApiContainer :=
  match c.Processes with
  | .error err =>
    .error (.grpcErrorf "Internal" ("get processes for container: " ++ err.msg))
  | .ok processes =>
    let procs := processes.map fun p =>
      let oldProc := p.Spec
      let stdio := p.Stdio
      let appendToProcs : ApiProcess :=
        { Pid := p.ID, SystemPid := uint32 p.SystemPid, Terminal := oldProc.Terminal,
          Args := oldProc.Args, Env := oldProc.Env, Cwd := oldProc.Cwd,
          Stdin := stdio.Stdin, Stdout := stdio.Stdout, Stderr := stdio.Stderr, user := "" }
      setUserFieldsInProcess appendToProcs oldProc
    let state := c.State
    -- the final `return &types.Container{...}, nil`, given the value of `pids`
    let finish : List Int → Except Error ApiContainer := fun pids =>
      .ok { Id := c.ID, BundlePath := c.Path, Processes := procs, Labels := c.Labels,
            Status := state, Pids := toUint32 pids, Runtime := c.Runtime }
    if getPids ∧ (state = Running ∨ state = Paused) then
      match c.Pids with
      | .error err =>
        .error (.grpcErrorf "Internal" ("get all pids for container: " ++ err.msg))
      | .ok pids => finish pids
    else
      finish []

/-- Go `func (s *apiServer) CreateContainer(ctx, c) (*types.CreateContainerResponse, error)`.

* `SendTask sv e` is the supervisor after `s.sv.SendTask(e)` has been served, with the
  value received from `e.ErrorCh()` and the value received from `e.StartResponse`.
* `createContainerConfigCheckpoint` and `setUserFieldsInProcess` are platform code that is
  not among the sources.
* `errCh` is the channel `e.ErrorCh()` yields, `ch` the identity of the channel that
  `make(chan supervisor.StartResponse, 1)` returns. -/
def apiServer.CreateContainer
    (SendTask : Supervisor → StartTask → Supervisor × Option Error × StartResponse)
    (createContainerConfigCheckpoint : StartTask → CreateContainerRequest → StartTask)
    (setUserFieldsInProcess : ApiProcess → ProcessSpec → ApiProcess)
    (errCh : Chan) (ch : Nat) (sv : Supervisor) (c : CreateContainerRequest) :
    Rpc CreateContainerResponse StartTask :=
  if c.BundlePath = "" then
    ⟨.returned none (some (.New "empty bundle path")), sv, []⟩
  else
    let e : StartTask :=
      { errCh := errCh, CheckpointDir := "", Checkpoint := none, ID := c.Id,
        BundlePath := c.BundlePath, Runtime := "", Stdout := c.Stdout, Stderr := c.Stderr,
        Stdin := c.Stdin, StartResponse := makeChan ch 1, Labels := c.Labels,
        NoPivotRoot := c.NoPivotRoot }
    let e := createContainerConfigCheckpoint e c
    match SendTask sv e with
    | (sv1, some err, _) => ⟨.returned none (some err), sv1, [e]⟩
    | (sv1, none, r) =>
      match r.Container with
      | none => ⟨.panicked, sv1, [e]⟩
      | some container =>
        match createAPIContainer setUserFieldsInProcess container false with
        | .error err => ⟨.returned none (some err), sv1, [e]⟩
        | .ok apiC => ⟨.returned (some { Container := apiC }) none, sv1, [e]⟩

/-- Go `func (s *apiServer) AddProcess(ctx, r) (*types.AddProcessResponse, error)`;
the response type has no field.  `setPlatformRuntimeProcessSpecUserFields` is platform
code that is not among the sources.  `errCh` is the channel `e.ErrorCh()` yields, `ch`
the identity of the channel that `make(chan supervisor.StartResponse, 1)` returns. -/
def apiServer.AddProcess
    (SendTask : Supervisor → AddProcessTask → Supervisor × Option Error)
    (setPlatformRuntimeProcessSpecUserFields : AddProcessRequest → ProcessSpec → ProcessSpec)
    (errCh : Chan) (ch : Nat) (sv : Supervisor) (r : AddProcessRequest) :
    Rpc Unit AddProcessTask :=
  let process : ProcessSpec :=
    { Terminal := r.Terminal, Args := r.Args, Env := r.Env, Cwd := r.Cwd, user := "" }
  let process := setPlatformRuntimeProcessSpecUserFields r process
  if r.Id = "" then
    ⟨.returned none (some (.Errorf "container id cannot be empty")), sv, []⟩
  else if r.Pid = "" then
    ⟨.returned none (some (.Errorf "process id cannot be empty")), sv, []⟩
  else
    let e : AddProcessTask :=
      { errCh := errCh, ID := r.Id, PID := r.Pid, Runtime := "", Stdout := r.Stdout,
        Stderr := r.Stderr, Stdin := r.Stdin, ProcessSpec := some process,
        StartResponse := makeChan ch 1 }
    match SendTask sv e with
    | (sv1, some err) => ⟨.returned none (some err), sv1, [e]⟩
    | (sv1, none) => ⟨.returned (some ()) none, sv1, [e]⟩

/-- Go `func (s *apiServer) UpdateContainer(ctx, r) (*types.UpdateContainerResponse, error)`;
the response type has no field. -/
def apiServer.UpdateContainer
    (SendTask : Supervisor → UpdateTask → Supervisor × Option Error)
    (errCh : Chan) (sv : Supervisor) (r : UpdateContainerRequest) :
    Rpc Unit UpdateTask :=
  let Resources : Option Resource :=
    match r.Resources with
    | none => none
    | some rs =>
      let z : Resource :=
        { CPUShares := 0, BlkioWeight := 0, CPUPeriod := 0, CPUQuota := 0, CpusetCpus := "",
          CpusetMems := "", KernelMemory := 0, Memory := 0, MemoryReservation := 0,
          MemorySwap := 0 }
      let z := if rs.CpuShares ≠ 0 then { z with CPUShares := int64 rs.CpuShares } else z
      let z := if rs.BlkioWeight ≠ 0 then { z with BlkioWeight := uint16 rs.BlkioWeight } else z
      let z := if rs.CpuPeriod ≠ 0 then { z with CPUPeriod := int64 rs.CpuPeriod } else z
      let z := if rs.CpuQuota ≠ 0 then { z with CPUQuota := int64 rs.CpuQuota } else z
      let z := if rs.CpusetCpus ≠ "" then { z with CpusetCpus := rs.CpusetCpus } else z
      let z := if rs.CpusetMems ≠ "" then { z with CpusetMems := rs.CpusetMems } else z
      let z := if rs.KernelMemoryLimit ≠ 0 then
        { z with KernelMemory := int64 rs.KernelMemoryLimit } else z
      let z := if rs.MemoryLimit ≠ 0 then { z with Memory := int64 rs.MemoryLimit } else z
      let z := if rs.MemoryReservation ≠ 0 then
        { z with MemoryReservation := int64 rs.MemoryReservation } else z
      let z := if rs.MemorySwap ≠ 0 then { z with MemorySwap := int64 rs.MemorySwap } else z
      some z
  let e : UpdateTask :=
    { errCh := errCh, ID := r.Id, Runtime := "", State := r.Status, Resources := Resources }
  match SendTask sv e with
  | (sv1, some err) => ⟨.returned none (some err), sv1, [e]⟩
  | (sv1, none) => ⟨.returned (some ()) none, sv1, [e]⟩

/-- Go `func (s *apiServer) UpdateProcess(ctx, r) (*types.UpdateProcessResponse, error)`;
the response type has no field.  `int(r.Height)` of a `uint32` is the same number (64-bit
`int`). -/
def apiServer.UpdateProcess
    (SendTask : Supervisor → UpdateProcessTask → Supervisor × Option Error)
    (errCh : Chan) (sv : Supervisor) (r : UpdateProcessRequest) :
    Rpc Unit UpdateProcessTask :=
  let e : UpdateProcessTask :=
    { errCh := errCh, ID := r.Id, PID := r.Pid, CloseStdin := r.CloseStdin,
      Width := (r.Width : Int), Height := (r.Height : Int) }
  match SendTask sv e with
  | (sv1, some err) => ⟨.returned none (some err), sv1, [e]⟩
  | (sv1, none) => ⟨.returned (some ()) none, sv1, [e]⟩

/-! ## Sample values -/

/-- A process handle whose calls succeed. -/
def sampleProcess (id : String) (pid : Int) : Process :=
  { ID := id, SystemPid := pid,
    Spec := { Terminal := false, Args := ["/bin/cat"], Env := [], Cwd := "/", user := "" },
    Stdio := { Stdin := "/dev/null", Stdout := "/dev/null", Stderr := "/dev/null" },
    CloseStdin := none, Resize := fun _ _ => none }

/-- A running container of runtime "runc" with an init process and one exec, whose
adapter refuses `Resume` and `UpdateResources` and accepts everything else. -/
def sampleContainer : Container :=
  { ID := "c1", Path := "/b/c1", Labels := [], Runtime := "runc", State := Running,
    Exec := fun pid spec stdio =>
      .ok { ID := pid, SystemPid := 4711, Spec := spec, Stdio := stdio,
            CloseStdin := none, Resize := fun _ _ => none },
    Pause := none,
    Resume := some { msg := "container not paused" },
    UpdateResources := fun _ => some { msg := "cgroup write failed" },
    Processes := .ok [sampleProcess "init" 4700, sampleProcess "p1" 4701,
                      sampleProcess "p1" 4702],
    Pids := .ok [4700, 4701, 4702] }

/-- A supervisor with default runtime "runc" whose registry holds `sampleContainer`
under "c1" and nothing else. -/
def sampleSupervisor : Supervisor :=
  { stateDir := "/run/containerd", runtime := "runc", runtimeArgs := [],
    shim := "containerd-shim", timeout := 15,
    containers := fun k => if k = "c1" then some { container := sampleContainer } else none }

/-- The sample supervisor with its container Paused; the adapter accepts `Pause` again. -/
def samplePausedSupervisor : Supervisor :=
  { sampleSupervisor with
    containers := fun k =>
      if k = "c1" then some { container := { sampleContainer with State := Paused } }
      else none }

/-- An open, empty channel of capacity 1. -/
def sampleChan (id : Nat) : Chan := makeChan id 1

/-- The nil channel. -/
def nilChan : Chan :=
  { id := 0, isNil := true, closed := false, cap := 0, len := 0, receiver := false }

/-- A `NewStdio` that keeps the three paths as they are. -/
def sampleNewStdio : String → String → String → Stdio := fun stdin stdout stderr =>
  { Stdin := stdin, Stdout := stdout, Stderr := stderr }

/-- A resource update that sets the cpu shares. -/
def sampleResource : Resource :=
  { CPUShares := 512, BlkioWeight := 0, CPUPeriod := 0, CPUQuota := 0, CpusetCpus := "",
    CpusetMems := "", KernelMemory := 0, Memory := 0, MemoryReservation := 0,
    MemorySwap := 0 }

/-- An update task for "c1" with the given state and resources and no runtime override. -/
def sampleUpdateTask (st : State) (res : Option Resource) : UpdateTask :=
  { errCh := sampleChan 1, ID := "c1", Runtime := "", State := st, Resources := res }

/-- An add-process task for "c1" and process "p2" with the given runtime override. -/
def sampleAddProcessTask (rt : String) : AddProcessTask :=
  { errCh := sampleChan 2, ID := "c1", PID := "p2", Runtime := rt, Stdout := "/tmp/out",
    Stderr := "/tmp/err", Stdin := "/tmp/in",
    ProcessSpec := some { Terminal := false, Args := ["/bin/cat"], Env := [], Cwd := "/",
                          user := "" },
    StartResponse := sampleChan 7 }

/-- A monitor that accepts every process. -/
def sampleMonitor : Process → Option ExternalError := fun _ => none

/-- A create request with an empty bundle path. -/
def sampleCreateRequest : CreateContainerRequest :=
  { Id := "c2", BundlePath := "", Checkpoint := "", Stdin := "/tmp/in", Stdout := "/tmp/out",
    Stderr := "/tmp/err", Labels := ["a=b"], NoPivotRoot := false, CheckpointDir := "" }

/-- An update-process task for process "p1" of "c1". -/
def sampleUpdateProcessTask (close : Bool) (w h : Int) : UpdateProcessTask :=
  { errCh := sampleChan 3, ID := "c1", PID := "p1", CloseStdin := close, Width := w,
    Height := h }

/-- A start task for "c9" with the given runtime override. -/
def sampleStartTask (rt : String) : StartTask :=
  { errCh := sampleChan 4, CheckpointDir := "", Checkpoint := none, ID := "c9",
    BundlePath := "/b/c9",
    Runtime := rt, Stdout := "/tmp/out", Stderr := "/tmp/err", Stdin := "/tmp/in",
    StartResponse := sampleChan 8, Labels := [], NoPivotRoot := false }

/-- An adapter that builds a handle reporting the id, bundle, labels and runtime it was
asked for, and refuses an empty bundle. -/
def sampleRuntimeNew : ContainerOpts → Except ExternalError Container := fun opts =>
  if opts.Bundle = "" then .error { msg := "missing bundle" }
  else .ok { sampleContainer with
             ID := opts.ID, Path := opts.Bundle, Labels := opts.Labels,
             Runtime := opts.Runtime, State := Created, Processes := .ok [], Pids := .ok [] }

/-- A clock that reads 100, 101, 102, ... -/
def sampleClock : Nat → Nat := fun k => 100 + k

end Containerd


/-! # Theorems -/

namespace Containerd

/-! ## updateContainer -/

/-- C3.  An update task on a registered container that passes the runtime check:
requested state "paused" calls `Pause` on the container, once, and never `Resume`; when
`Pause` succeeds exactly one event is published, of type "pause" and carrying the task's
container id, and the handler returns nil; when `Pause` fails its error is returned
unchanged and no event is published.  Requested state "running" does the same with
`Resume` and a "resume" event.  Any other non-empty requested state returns
`ErrUnknownContainerStatus`, calls neither `Pause` nor `Resume` nor `UpdateResources`
(the trace holds only the `Runtime()` read of the runtime check) and publishes no event.
The RPC handler hands the request's status string on unchanged as the requested state. -/
theorem updateContainer_state_request (s : Supervisor) (clock : Nat → Nat) (t : UpdateTask)
    (i : containerInfo) (hreg : s.containers t.ID = some i)
    (hrt : i.container.Runtime = if t.Runtime = "" then s.runtime else t.Runtime) :
    (t.State = "paused" →
      pauseCalls (s.updateContainer clock t).trace = [i.container] ∧
      resumeCalls (s.updateContainer clock t).trace = [] ∧
      (i.container.Pause = none →
        events (s.updateContainer clock t).trace =
          [{ ID := t.ID, Type_ := "pause", Timestamp := clock 0, PID := "", Status := 0 }] ∧
        (s.updateContainer clock t).out = .returned none) ∧
      (∀ err, i.container.Pause = some err →
        events (s.updateContainer clock t).trace = [] ∧
        (s.updateContainer clock t).out = .returned (some (.external err)))) ∧
    (t.State = "running" →
      resumeCalls (s.updateContainer clock t).trace = [i.container] ∧
      pauseCalls (s.updateContainer clock t).trace = [] ∧
      (i.container.Resume = none →
        events (s.updateContainer clock t).trace =
          [{ ID := t.ID, Type_ := "resume", Timestamp := clock 0, PID := "", Status := 0 }] ∧
        (s.updateContainer clock t).out = .returned none) ∧
      (∀ err, i.container.Resume = some err →
        events (s.updateContainer clock t).trace = [] ∧
        (s.updateContainer clock t).out = .returned (some (.external err)))) ∧
    (t.State ≠ "" → t.State ≠ "running" → t.State ≠ "paused" →
      (s.updateContainer clock t).out = .returned (some .ErrUnknownContainerStatus) ∧
      (s.updateContainer clock t).trace = [.Runtime i.container] ∧
      pauseCalls (s.updateContainer clock t).trace = [] ∧
      resumeCalls (s.updateContainer clock t).trace = [] ∧
      updateResourcesCalls (s.updateContainer clock t).trace = [] ∧
      events (s.updateContainer clock t).trace = []) ∧
    (∀ SendTask errCh sv r,
      (apiServer.UpdateContainer SendTask errCh sv r).sent.map (fun e => (e.ID, e.State))
        = [(r.Id, r.Status)]) := by
  refine ⟨?_, ?_, ?_, ?_⟩
  · intro hst
    unfold Supervisor.updateContainer
    simp only [hreg]
    by_cases hr : t.Runtime = "" <;>
      cases hp : i.container.Pause <;>
      simp_all [Running, Paused, StatePause, pauseCalls, resumeCalls, events]
  · intro hst
    unfold Supervisor.updateContainer
    simp only [hreg]
    by_cases hr : t.Runtime = "" <;>
      cases hp : i.container.Resume <;>
      simp_all [Running, Paused, StateResume, pauseCalls, resumeCalls, events]
  · intro h0 h1 h2
    unfold Supervisor.updateContainer
    simp only [hreg]
    by_cases hr : t.Runtime = "" <;>
      simp_all [Running, Paused, pauseCalls, resumeCalls, updateResourcesCalls, events]
  · intro SendTask errCh sv r
    unfold apiServer.UpdateContainer
    simp only
    split <;> simp
/-- Witness for C3 on the sample supervisor: "paused" pauses container "c1", publishes one
pause event and returns nil; "frozen" is answered with `ErrUnknownContainerStatus`. -/
theorem updateContainer_state_request_witness :
    sampleSupervisor.containers (sampleUpdateTask "paused" none).ID
      = some { container := sampleContainer } ∧
    sampleContainer.Runtime = sampleSupervisor.runtime ∧
    (events (sampleSupervisor.updateContainer sampleClock (sampleUpdateTask "paused" none)).trace
        = [{ ID := "c1", Type_ := "pause", Timestamp := 100, PID := "", Status := 0 }] ∧
      (sampleSupervisor.updateContainer sampleClock (sampleUpdateTask "paused" none)).out
        = .returned none) ∧
    (sampleSupervisor.updateContainer sampleClock (sampleUpdateTask "frozen" none)).out
      = .returned (some .ErrUnknownContainerStatus) :=
  ⟨rfl, rfl,
   ((updateContainer_state_request sampleSupervisor sampleClock (sampleUpdateTask "paused" none)
      { container := sampleContainer } rfl rfl).1 rfl).2.2.1 rfl,
   ((updateContainer_state_request sampleSupervisor sampleClock (sampleUpdateTask "frozen" none)
      { container := sampleContainer } rfl rfl).2.2.1 (by decide) (by decide) (by decide)).1⟩

/-- C1, counterexample.  On the sample supervisor the task for "c1" with requested state
"paused" and a non-nil resource update passes the runtime check; `Pause` is called and the
pause event published, but `UpdateResources` is not called, and the handler returns nil
although the adapter would have answered `UpdateResources` with an error. -/
theorem updateContainer_state_and_resources_counterexample :
    sampleSupervisor.containers (sampleUpdateTask "paused" (some sampleResource)).ID
      = some { container := sampleContainer } ∧
    sampleContainer.Runtime = sampleSupervisor.runtime ∧
    (sampleUpdateTask "paused" (some sampleResource)).State = Paused ∧
    (sampleUpdateTask "paused" (some sampleResource)).Resources = some sampleResource ∧
    pauseCalls (sampleSupervisor.updateContainer sampleClock
      (sampleUpdateTask "paused" (some sampleResource))).trace = [sampleContainer] ∧
    events (sampleSupervisor.updateContainer sampleClock
      (sampleUpdateTask "paused" (some sampleResource))).trace
        = [{ ID := "c1", Type_ := "pause", Timestamp := 100, PID := "", Status := 0 }] ∧
    updateResourcesCalls (sampleSupervisor.updateContainer sampleClock
      (sampleUpdateTask "paused" (some sampleResource))).trace = [] ∧
    (sampleSupervisor.updateContainer sampleClock
      (sampleUpdateTask "paused" (some sampleResource))).out = .returned none ∧
    Outcome.returned (verbatim (sampleContainer.UpdateResources sampleResource))
      ≠ .returned none :=
  ⟨rfl, rfl, rfl, rfl, rfl, rfl, rfl, rfl, by decide⟩

/-- C1, amended.  An update task on a registered container that passes the runtime check
and carries a non-nil resource update: when its requested state is "running" or "paused"
the handler performs the state change only (it calls `Resume`, respectively `Pause`, once,
publishes the event when the call succeeds and returns the outcome of that call) and
never calls `UpdateResources`; when its requested state is empty the handler calls
`UpdateResources` once, with the task's resources, and returns that call's result. -/
theorem updateContainer_state_excludes_resources (s : Supervisor) (clock : Nat → Nat)
    (t : UpdateTask) (i : containerInfo) (r : Resource)
    (hreg : s.containers t.ID = some i)
    (hrt : i.container.Runtime = if t.Runtime = "" then s.runtime else t.Runtime)
    (hres : t.Resources = some r) :
    (t.State = Running →
      resumeCalls (s.updateContainer clock t).trace = [i.container] ∧
      (s.updateContainer clock t).out = .returned (verbatim i.container.Resume) ∧
      events (s.updateContainer clock t).trace
        = (if i.container.Resume = none then
            [{ ID := t.ID, Type_ := "resume", Timestamp := clock 0, PID := "", Status := 0 }]
           else []) ∧
      updateResourcesCalls (s.updateContainer clock t).trace = []) ∧
    (t.State = Paused →
      pauseCalls (s.updateContainer clock t).trace = [i.container] ∧
      (s.updateContainer clock t).out = .returned (verbatim i.container.Pause) ∧
      events (s.updateContainer clock t).trace
        = (if i.container.Pause = none then
            [{ ID := t.ID, Type_ := "pause", Timestamp := clock 0, PID := "", Status := 0 }]
           else []) ∧
      updateResourcesCalls (s.updateContainer clock t).trace = []) ∧
    (t.State = "" →
      updateResourcesCalls (s.updateContainer clock t).trace = [(i.container, r)] ∧
      (s.updateContainer clock t).out = .returned (verbatim (i.container.UpdateResources r)) ∧
      pauseCalls (s.updateContainer clock t).trace = [] ∧
      resumeCalls (s.updateContainer clock t).trace = [] ∧
      events (s.updateContainer clock t).trace = []) := by
  refine ⟨?_, ?_, ?_⟩
  · intro hst
    unfold Supervisor.updateContainer
    simp only [hreg]
    by_cases hr : t.Runtime = "" <;>
      cases hp : i.container.Resume <;>
      simp_all [Running, Paused, StatePause, StateResume, verbatim, pauseCalls, resumeCalls,
        updateResourcesCalls, events]
  · intro hst
    unfold Supervisor.updateContainer
    simp only [hreg]
    by_cases hr : t.Runtime = "" <;>
      cases hp : i.container.Pause <;>
      simp_all [Running, Paused, StatePause, StateResume, verbatim, pauseCalls, resumeCalls,
        updateResourcesCalls, events]
  · intro hst
    unfold Supervisor.updateContainer
    simp only [hreg]
    by_cases hr : t.Runtime = "" <;>
      simp_all [Running, Paused, StatePause, StateResume, verbatim, pauseCalls, resumeCalls,
        updateResourcesCalls, events]

/-- Witness for the amended C1 on the sample supervisor: with requested state "paused" and
resources present no `UpdateResources` call is made; with empty state and the same
resources the call is made and its error returned. -/
theorem updateContainer_state_excludes_resources_witness :
    sampleSupervisor.containers "c1" = some { container := sampleContainer } ∧
    updateResourcesCalls (sampleSupervisor.updateContainer sampleClock
      (sampleUpdateTask "paused" (some sampleResource))).trace = [] ∧
    (sampleSupervisor.updateContainer sampleClock
      (sampleUpdateTask "" (some sampleResource))).out
        = .returned (some (.external { msg := "cgroup write failed" })) :=
  ⟨rfl,
   ((updateContainer_state_excludes_resources sampleSupervisor sampleClock
      (sampleUpdateTask "paused" (some sampleResource)) { container := sampleContainer }
      sampleResource rfl rfl rfl).2.1 rfl).2.2.2,
   ((updateContainer_state_excludes_resources sampleSupervisor sampleClock
      (sampleUpdateTask "" (some sampleResource)) { container := sampleContainer }
      sampleResource rfl rfl rfl).2.2 rfl).2.1⟩

/-- C2, counterexample.  The sample container is Running and "running" is requested: the
handler calls `Resume` and returns the adapter's error, not `ErrUnknownContainerStatus`.
The container of `samplePausedSupervisor` is Paused and "paused" is requested: the
handler calls `Pause`, publishes a pause event and returns nil. -/
theorem updateContainer_transition_counterexample :
    (sampleSupervisor.containers (sampleUpdateTask "running" none).ID
        = some { container := sampleContainer } ∧
      sampleContainer.State = Running ∧
      (sampleUpdateTask "running" none).State = Running ∧
      resumeCalls (sampleSupervisor.updateContainer sampleClock
        (sampleUpdateTask "running" none)).trace = [sampleContainer] ∧
      (sampleSupervisor.updateContainer sampleClock (sampleUpdateTask "running" none)).out
        = .returned (some (.external { msg := "container not paused" })) ∧
      (sampleSupervisor.updateContainer sampleClock (sampleUpdateTask "running" none)).out
        ≠ .returned (some .ErrUnknownContainerStatus)) ∧
    (samplePausedSupervisor.containers (sampleUpdateTask "paused" none).ID
        = some { container := { sampleContainer with State := Paused } } ∧
      (sampleUpdateTask "paused" none).State = Paused ∧
      pauseCalls (samplePausedSupervisor.updateContainer sampleClock
        (sampleUpdateTask "paused" none)).trace = [{ sampleContainer with State := Paused }] ∧
      events (samplePausedSupervisor.updateContainer sampleClock
        (sampleUpdateTask "paused" none)).trace
          = [{ ID := "c1", Type_ := "pause", Timestamp := 100, PID := "", Status := 0 }] ∧
      (samplePausedSupervisor.updateContainer sampleClock (sampleUpdateTask "paused" none)).out
        = .returned none) :=
  ⟨⟨rfl, rfl, rfl, rfl, rfl, by decide⟩, ⟨rfl, rfl, rfl, rfl, rfl⟩⟩

/-- C2, amended.  An update task with a non-empty requested state on a registered
container that passes the runtime check, whatever the container's current state: the
handler returns `ErrUnknownContainerStatus`, calling neither `Pause` nor `Resume` and
publishing no event, when the requested state is neither "running" nor "paused"; when
"running" is requested it calls `Resume` (and not `Pause`) and when "paused" is requested
it calls `Pause` (and not `Resume`), returning the outcome of that call.  The current
state is not consulted: with the container's `State()` replaced by any `cur` the handler
returns the same result and publishes the same events. -/
theorem updateContainer_ignores_current_state (s : Supervisor) (clock : Nat → Nat)
    (t : UpdateTask) (i : containerInfo) (cur : State)
    (hreg : s.containers t.ID = some i)
    (hrt : i.container.Runtime = if t.Runtime = "" then s.runtime else t.Runtime)
    (hst : t.State ≠ "") :
    (t.State ≠ Running → t.State ≠ Paused →
      (s.updateContainer clock t).out = .returned (some .ErrUnknownContainerStatus) ∧
      pauseCalls (s.updateContainer clock t).trace = [] ∧
      resumeCalls (s.updateContainer clock t).trace = [] ∧
      events (s.updateContainer clock t).trace = []) ∧
    (t.State = Running →
      resumeCalls (s.updateContainer clock t).trace = [i.container] ∧
      pauseCalls (s.updateContainer clock t).trace = [] ∧
      (s.updateContainer clock t).out = .returned (verbatim i.container.Resume)) ∧
    (t.State = Paused →
      pauseCalls (s.updateContainer clock t).trace = [i.container] ∧
      resumeCalls (s.updateContainer clock t).trace = [] ∧
      (s.updateContainer clock t).out = .returned (verbatim i.container.Pause)) ∧
    (Supervisor.updateContainer
        { s with containers := fun k =>
            if k = t.ID then some { container := { i.container with State := cur } }
            else s.containers k } clock t).out
      = (s.updateContainer clock t).out ∧
    events (Supervisor.updateContainer
        { s with containers := fun k =>
            if k = t.ID then some { container := { i.container with State := cur } }
            else s.containers k } clock t).trace
      = events (s.updateContainer clock t).trace := by
  refine ⟨?_, ?_, ?_, ?_, ?_⟩
  · intro h1 h2
    unfold Supervisor.updateContainer
    simp only [hreg]
    by_cases hr : t.Runtime = "" <;>
      simp_all [pauseCalls, resumeCalls, events]
  · intro h1
    unfold Supervisor.updateContainer
    simp only [hreg]
    by_cases hr : t.Runtime = "" <;>
      cases hp : i.container.Resume <;>
      simp_all [Running, Paused, verbatim, pauseCalls, resumeCalls, events]
  · intro h1
    unfold Supervisor.updateContainer
    simp only [hreg]
    by_cases hr : t.Runtime = "" <;>
      cases hp : i.container.Pause <;>
      simp_all [Running, Paused, verbatim, pauseCalls, resumeCalls, events]
  · unfold Supervisor.updateContainer
    simp only [hreg, if_true]
    by_cases hr : t.Runtime = "" <;>
      by_cases h1 : t.State = Running <;>
      by_cases h2 : t.State = Paused <;>
      cases hp : i.container.Pause <;>
      cases hq : i.container.Resume <;>
      simp_all
  · unfold Supervisor.updateContainer
    simp only [hreg, if_true]
    by_cases hr : t.Runtime = "" <;>
      by_cases h1 : t.State = Running <;>
      by_cases h2 : t.State = Paused <;>
      cases hp : i.container.Pause <;>
      cases hq : i.container.Resume <;>
      simp_all [events]

/-- Witness for the amended C2: the sample container is Running, "running" is requested,
and `Resume` is called on it; "created" is answered with `ErrUnknownContainerStatus`. -/
theorem updateContainer_ignores_current_state_witness :
    sampleSupervisor.containers "c1" = some { container := sampleContainer } ∧
    sampleContainer.State = Running ∧
    resumeCalls (sampleSupervisor.updateContainer sampleClock
      (sampleUpdateTask "running" none)).trace = [sampleContainer] ∧
    (sampleSupervisor.updateContainer sampleClock (sampleUpdateTask "created" none)).out
      = .returned (some .ErrUnknownContainerStatus) :=
  ⟨rfl, rfl,
   ((updateContainer_ignores_current_state sampleSupervisor sampleClock
      (sampleUpdateTask "running" none) { container := sampleContainer } Stopped
      rfl rfl (by decide)).2.1 rfl).1,
   ((updateContainer_ignores_current_state sampleSupervisor sampleClock
      (sampleUpdateTask "created" none) { container := sampleContainer } Stopped
      rfl rfl (by decide)).1 (by decide) (by decide)).1⟩

/-! ## addProcess -/

/-- C4.  An add-process task on a registered container whose runtime override is
non-empty and differs from the container's runtime: the handler returns the error
"Expect runtime:<container's>, got:<task's>", does not call `Exec`, registers no process
with the monitor, sends nothing on `StartResponse`, publishes no event, and leaves the
supervisor as it was. -/
theorem addProcess_runtime_mismatch (s : Supervisor)
    (NewStdio : String → String → String → Stdio)
    (monitorProcess : Process → Option ExternalError) (clock : Nat → Nat)
    (t : AddProcessTask) (ci : containerInfo)
    (hreg : s.containers t.ID = some ci)
    (hne : t.Runtime ≠ "")
    (hdiff : t.Runtime ≠ ci.container.Runtime) :
    (s.addProcess NewStdio monitorProcess clock t).out
      = .returned (some (.Errorf
          ("Expect runtime:" ++ ci.container.Runtime ++ ", got:" ++ t.Runtime))) ∧
    execCalls (s.addProcess NewStdio monitorProcess clock t).trace = [] ∧
    monitored (s.addProcess NewStdio monitorProcess clock t).trace = [] ∧
    startResponses (s.addProcess NewStdio monitorProcess clock t).trace = [] ∧
    events (s.addProcess NewStdio monitorProcess clock t).trace = [] ∧
    (s.addProcess NewStdio monitorProcess clock t).sv = s := by
  have h : ¬ ci.container.Runtime = t.Runtime := fun h => hdiff h.symm
  unfold Supervisor.addProcess
  simp [hreg, hne, h, expectRuntimeMsg, execCalls, monitored, startResponses, events]

/-- Witness for C4: the sample container was created with "runc"; an add-process task
naming runtime "other" is refused. -/
theorem addProcess_runtime_mismatch_witness :
    sampleSupervisor.containers (sampleAddProcessTask "other").ID
      = some { container := sampleContainer } ∧
    (sampleSupervisor.addProcess sampleNewStdio sampleMonitor sampleClock
      (sampleAddProcessTask "other")).out
      = .returned (some (.Errorf "Expect runtime:runc, got:other")) ∧
    events (sampleSupervisor.addProcess sampleNewStdio sampleMonitor sampleClock
      (sampleAddProcessTask "other")).trace = [] :=
  ⟨rfl,
   (addProcess_runtime_mismatch sampleSupervisor sampleNewStdio sampleMonitor sampleClock
      (sampleAddProcessTask "other") { container := sampleContainer } rfl
      (by decide) (by decide)).1,
   (addProcess_runtime_mismatch sampleSupervisor sampleNewStdio sampleMonitor sampleClock
      (sampleAddProcessTask "other") { container := sampleContainer } rfl
      (by decide) (by decide)).2.2.2.2.1⟩

/-- C5, counterexample.  Two add-process tasks for "c1" on the sample supervisor, both
passing the runtime check.  The first brings the nil channel as `StartResponse`: `Exec`
and the monitor succeed, yet the handler waits for ever on the send, so it does not
return nil, publishes no event and sends no `StartResponse`.  The second has a nil
`ProcessSpec`: the handler panics and `Exec` is not called. -/
theorem addProcess_exec_counterexample :
    (sampleSupervisor.containers (sampleAddProcessTask "").ID
        = some { container := sampleContainer } ∧
      sampleContainer.Runtime = sampleSupervisor.runtime ∧
      (∃ p, sampleContainer.Exec "p2"
          { Terminal := false, Args := ["/bin/cat"], Env := [], Cwd := "/", user := "" }
          (sampleNewStdio "/tmp/in" "/tmp/out" "/tmp/err") = .ok p ∧
        sampleMonitor p = none) ∧
      (sampleSupervisor.addProcess sampleNewStdio sampleMonitor sampleClock
        { sampleAddProcessTask "" with StartResponse := nilChan }).out = .blocked ∧
      (sampleSupervisor.addProcess sampleNewStdio sampleMonitor sampleClock
        { sampleAddProcessTask "" with StartResponse := nilChan }).out ≠ .returned none ∧
      events (sampleSupervisor.addProcess sampleNewStdio sampleMonitor sampleClock
        { sampleAddProcessTask "" with StartResponse := nilChan }).trace = [] ∧
      startResponses (sampleSupervisor.addProcess sampleNewStdio sampleMonitor sampleClock
        { sampleAddProcessTask "" with StartResponse := nilChan }).trace = []) ∧
    ((sampleSupervisor.addProcess sampleNewStdio sampleMonitor sampleClock
        { sampleAddProcessTask "" with ProcessSpec := none }).out = .panicked ∧
      execCalls (sampleSupervisor.addProcess sampleNewStdio sampleMonitor sampleClock
        { sampleAddProcessTask "" with ProcessSpec := none }).trace = []) :=
  ⟨⟨rfl, rfl, ⟨_, rfl, rfl⟩, rfl, by decide, rfl, rfl⟩, ⟨rfl, rfl⟩⟩

/-- C5, amended.  An add-process task on a registered container that passes the runtime
check.
(1) With a nil `ProcessSpec` the handler panics before `Exec`: no call, no event, no
`StartResponse`.
(2) With a process spec, `Exec` is called exactly once, on that container, with the
task's process id, that spec and `NewStdio` of the task's stdin, stdout and stderr paths.
When `Exec` yields a process and the monitor accepts it, the process is registered, and
if the send on the task's `StartResponse` channel completes the handler sends exactly one
(empty) `StartResponse` on that channel, publishes exactly one event, of type
"start-process" with the task's container id and process id, and returns nil; if the
send blocks the handler never returns, and if it panics the handler panics, in both
cases with no event and no `StartResponse`.  When `Exec` fails, or `Exec` succeeds and
the monitor refuses the process, that error is returned unchanged, no event is published
and no `StartResponse` is sent.
(3) Every task the RPC handler `AddProcess` sends has a process spec and a
`StartResponse` channel on which a send completes. -/
theorem addProcess_exec (s : Supervisor)
    (NewStdio : String → String → String → Stdio)
    (monitorProcess : Process → Option ExternalError) (clock : Nat → Nat)
    (t : AddProcessTask) (ci : containerInfo)
    (hreg : s.containers t.ID = some ci)
    (hrt : ci.container.Runtime = if t.Runtime = "" then s.runtime else t.Runtime) :
    (t.ProcessSpec = none →
      (s.addProcess NewStdio monitorProcess clock t).out = .panicked ∧
      execCalls (s.addProcess NewStdio monitorProcess clock t).trace = [] ∧
      events (s.addProcess NewStdio monitorProcess clock t).trace = [] ∧
      startResponses (s.addProcess NewStdio monitorProcess clock t).trace = []) ∧
    (∀ spec, t.ProcessSpec = some spec →
      execCalls (s.addProcess NewStdio monitorProcess clock t).trace
        = [(ci.container, t.PID, spec, NewStdio t.Stdin t.Stdout t.Stderr)] ∧
      (∀ p, ci.container.Exec t.PID spec (NewStdio t.Stdin t.Stdout t.Stderr) = .ok p →
          monitorProcess p = none →
        monitored (s.addProcess NewStdio monitorProcess clock t).trace = [p] ∧
        (t.StartResponse.send = .completes →
          events (s.addProcess NewStdio monitorProcess clock t).trace
            = [{ ID := t.ID, Type_ := "start-process", Timestamp := clock 1, PID := t.PID,
                 Status := 0 }] ∧
          startResponses (s.addProcess NewStdio monitorProcess clock t).trace
            = [(t.StartResponse, { Container := none })] ∧
          (s.addProcess NewStdio monitorProcess clock t).out = .returned none) ∧
        (t.StartResponse.send = .blocks →
          (s.addProcess NewStdio monitorProcess clock t).out = .blocked ∧
          events (s.addProcess NewStdio monitorProcess clock t).trace = [] ∧
          startResponses (s.addProcess NewStdio monitorProcess clock t).trace = []) ∧
        (t.StartResponse.send = .panics →
          (s.addProcess NewStdio monitorProcess clock t).out = .panicked ∧
          events (s.addProcess NewStdio monitorProcess clock t).trace = [] ∧
          startResponses (s.addProcess NewStdio monitorProcess clock t).trace = [])) ∧
      (∀ err, ci.container.Exec t.PID spec (NewStdio t.Stdin t.Stdout t.Stderr)
            = .error err →
        (s.addProcess NewStdio monitorProcess clock t).out
          = .returned (some (.external err)) ∧
        monitored (s.addProcess NewStdio monitorProcess clock t).trace = [] ∧
        events (s.addProcess NewStdio monitorProcess clock t).trace = [] ∧
        startResponses (s.addProcess NewStdio monitorProcess clock t).trace = []) ∧
      (∀ p err, ci.container.Exec t.PID spec (NewStdio t.Stdin t.Stdout t.Stderr) = .ok p →
          monitorProcess p = some err →
        (s.addProcess NewStdio monitorProcess clock t).out
          = .returned (some (.external err)) ∧
        events (s.addProcess NewStdio monitorProcess clock t).trace = [] ∧
        startResponses (s.addProcess NewStdio monitorProcess clock t).trace = [])) ∧
    (∀ SendTask setUser errCh ch sv r,
      ∀ e ∈ (apiServer.AddProcess SendTask setUser errCh ch sv r).sent,
        e.ProcessSpec ≠ none ∧ e.StartResponse.send = .completes) := by
  refine ⟨?_, ?_, ?_⟩
  · intro hspec
    unfold Supervisor.addProcess
    simp only [hreg]
    by_cases hr : t.Runtime = "" <;>
      simp_all [execCalls, events, startResponses]
  · intro spec hspec
    refine ⟨?_, ?_, ?_, ?_⟩
    · unfold Supervisor.addProcess
      simp only [hreg]
      by_cases hr : t.Runtime = "" <;>
        simp_all <;>
        (repeat' split) <;> simp [execCalls]
    · intro p hp hm
      refine ⟨?_, ?_, ?_, ?_⟩
      · unfold Supervisor.addProcess
        simp only [hreg]
        by_cases hr : t.Runtime = "" <;>
          simp_all <;>
          split <;> simp [monitored]
      · intro hsend
        unfold Supervisor.addProcess
        simp only [hreg]
        by_cases hr : t.Runtime = "" <;>
          simp_all [StateStartProcess, events, startResponses]
      · intro hsend
        unfold Supervisor.addProcess
        simp only [hreg]
        by_cases hr : t.Runtime = "" <;>
          simp_all [events, startResponses]
      · intro hsend
        unfold Supervisor.addProcess
        simp only [hreg]
        by_cases hr : t.Runtime = "" <;>
          simp_all [events, startResponses]
    · intro err he
      unfold Supervisor.addProcess
      simp only [hreg]
      by_cases hr : t.Runtime = "" <;>
        simp_all [monitored, events, startResponses]
    · intro p err hp hm
      unfold Supervisor.addProcess
      simp only [hreg]
      by_cases hr : t.Runtime = "" <;>
        simp_all [monitored, events, startResponses]
  · intro SendTask setUser errCh ch sv r e he
    unfold apiServer.AddProcess at he
    simp only at he
    split_ifs at he
    · simp at he
    · simp at he
    · split at he <;> simp at he <;> simp [he, Chan.send, makeChan]

/-- Witness for the amended C5 on the sample supervisor: the task for "c1" without runtime
override brings a process spec and an empty channel of capacity 1; the handler execs
"p2", publishes one start-process event and returns nil. -/
theorem addProcess_exec_witness :
    sampleSupervisor.containers (sampleAddProcessTask "").ID
      = some { container := sampleContainer } ∧
    (sampleAddProcessTask "").StartResponse.send = .completes ∧
    events (sampleSupervisor.addProcess sampleNewStdio sampleMonitor sampleClock
      (sampleAddProcessTask "")).trace
        = [{ ID := "c1", Type_ := "start-process", Timestamp := 101, PID := "p2",
             Status := 0 }] ∧
    (sampleSupervisor.addProcess sampleNewStdio sampleMonitor sampleClock
      (sampleAddProcessTask "")).out = .returned none :=
  ⟨rfl, rfl,
   ((((addProcess_exec sampleSupervisor sampleNewStdio sampleMonitor sampleClock
      (sampleAddProcessTask "") { container := sampleContainer } rfl rfl).2.1 _ rfl).2.1
      _ rfl rfl).2.1 rfl).1,
   ((((addProcess_exec sampleSupervisor sampleNewStdio sampleMonitor sampleClock
      (sampleAddProcessTask "") { container := sampleContainer } rfl rfl).2.1 _ rfl).2.1
      _ rfl rfl).2.1 rfl).2.2⟩

/-! ## Registry miss -/

/-- C6.  Whatever the registry, for a task whose container id is not a key of it,
`addProcess`, `updateContainer` and `updateProcess` each return `ErrContainerNotFound`
with an empty trace (no adapter call, no event, nothing sent) and leave the registry, and
the rest of the supervisor, as they were. -/
theorem handlers_container_not_found (s : Supervisor) :
    (∀ (NewStdio : String → String → String → Stdio)
        (monitorProcess : Process → Option ExternalError) (clock : Nat → Nat)
        (t : AddProcessTask), s.containers t.ID = none →
      (s.addProcess NewStdio monitorProcess clock t).out = .returned (some .ErrContainerNotFound) ∧
      (s.addProcess NewStdio monitorProcess clock t).trace = [] ∧
      (s.addProcess NewStdio monitorProcess clock t).sv.containers = s.containers ∧
      (s.addProcess NewStdio monitorProcess clock t).sv = s) ∧
    (∀ (clock : Nat → Nat) (t : UpdateTask), s.containers t.ID = none →
      (s.updateContainer clock t).out = .returned (some .ErrContainerNotFound) ∧
      (s.updateContainer clock t).trace = [] ∧
      (s.updateContainer clock t).sv.containers = s.containers ∧
      (s.updateContainer clock t).sv = s) ∧
    (∀ (t : UpdateProcessTask), s.containers t.ID = none →
      (s.updateProcess t).out = .returned (some .ErrContainerNotFound) ∧
      (s.updateProcess t).trace = [] ∧
      (s.updateProcess t).sv.containers = s.containers ∧
      (s.updateProcess t).sv = s) := by
  refine ⟨?_, ?_, ?_⟩
  · intro f m clock t h
    simp [Supervisor.addProcess, h]
  · intro clock t h
    simp [Supervisor.updateContainer, h]
  · intro t h
    simp [Supervisor.updateProcess, h]

/-- Witness for C6: "nope" is not registered with the sample supervisor. -/
theorem handlers_container_not_found_witness :
    sampleSupervisor.containers "nope" = none ∧
    (sampleSupervisor.addProcess sampleNewStdio sampleMonitor sampleClock
      { sampleAddProcessTask "" with ID := "nope" }).out
        = .returned (some .ErrContainerNotFound) ∧
    (sampleSupervisor.updateContainer sampleClock
      { sampleUpdateTask "paused" none with ID := "nope" }).trace = [] ∧
    (sampleSupervisor.updateProcess
      { errCh := sampleChan 3, ID := "nope", PID := "p1", CloseStdin := true, Width := 80,
        Height := 24 }).sv.containers = sampleSupervisor.containers :=
  ⟨rfl,
   ((handlers_container_not_found sampleSupervisor).1 sampleNewStdio sampleMonitor sampleClock
      { sampleAddProcessTask "" with ID := "nope" } rfl).1,
   ((handlers_container_not_found sampleSupervisor).2.1 sampleClock
      { sampleUpdateTask "paused" none with ID := "nope" } rfl).2.1,
   ((handlers_container_not_found sampleSupervisor).2.2
      { errCh := sampleChan 3, ID := "nope", PID := "p1", CloseStdin := true, Width := 80,
        Height := 24 } rfl).2.2.1⟩

/-! ## CreateContainer -/

/-- C7.  A create request whose bundle path is the empty string, whatever its other
fields and however the supervisor would serve a task: the RPC handler returns no
response and the error made by `errors.New("empty bundle path")`, hands no task to
`SendTask`, and the supervisor, its registry included, is as before. -/
theorem CreateContainer_empty_bundle_path
    (SendTask : Supervisor → StartTask → Supervisor × Option Error × StartResponse)
    (createContainerConfigCheckpoint : StartTask → CreateContainerRequest → StartTask)
    (setUserFieldsInProcess : ApiProcess → ProcessSpec → ApiProcess)
    (errCh : Chan) (ch : Nat) (sv : Supervisor) (c : CreateContainerRequest)
    (hb : c.BundlePath = "") :
    (apiServer.CreateContainer SendTask createContainerConfigCheckpoint
        setUserFieldsInProcess errCh ch sv c).out
      = .returned none (some (.New "empty bundle path")) ∧
    (apiServer.CreateContainer SendTask createContainerConfigCheckpoint
        setUserFieldsInProcess errCh ch sv c).sent = [] ∧
    (apiServer.CreateContainer SendTask createContainerConfigCheckpoint
        setUserFieldsInProcess errCh ch sv c).sv = sv ∧
    (apiServer.CreateContainer SendTask createContainerConfigCheckpoint
        setUserFieldsInProcess errCh ch sv c).sv.containers = sv.containers := by
  simp [apiServer.CreateContainer, hb]

/-- Witness for C7: the request for "c2" with an empty bundle path is refused whatever the
supervisor would have answered; the sample supervisor keeps its registry. -/
theorem CreateContainer_empty_bundle_path_witness :
    sampleCreateRequest.BundlePath = "" ∧
    (apiServer.CreateContainer
        (fun sv _ => (sv, none, { Container := some sampleContainer }))
        (fun e _ => e) (fun p _ => p) (sampleChan 1) 2 sampleSupervisor sampleCreateRequest).out
      = .returned none (some (.New "empty bundle path")) ∧
    (apiServer.CreateContainer
        (fun sv _ => (sv, none, { Container := some sampleContainer }))
        (fun e _ => e) (fun p _ => p) (sampleChan 1) 2 sampleSupervisor sampleCreateRequest).sent = [] :=
  ⟨rfl,
   (CreateContainer_empty_bundle_path
      (fun sv _ => (sv, none, { Container := some sampleContainer }))
      (fun e _ => e) (fun p _ => p) (sampleChan 1) 2 sampleSupervisor sampleCreateRequest rfl).1,
   (CreateContainer_empty_bundle_path
      (fun sv _ => (sv, none, { Container := some sampleContainer }))
      (fun e _ => e) (fun p _ => p) (sampleChan 1) 2 sampleSupervisor sampleCreateRequest rfl).2.1⟩

/-! ## updateProcess -/

theorem closeStdinCalls_append (a b : List Effect) :
    closeStdinCalls (a ++ b) = closeStdinCalls a ++ closeStdinCalls b := by
  induction a with
  | nil => rfl
  | cons e tr ih => cases e <;> simp [closeStdinCalls, ih]

theorem resizeCalls_append (a b : List Effect) :
    resizeCalls (a ++ b) = resizeCalls a ++ resizeCalls b := by
  induction a with
  | nil => rfl
  | cons e tr ih => cases e <;> simp [resizeCalls, ih]

/-- The search loop only reads process ids. -/
theorem findProcess_trace (PID : String) (ps : List Process) :
    closeStdinCalls (findProcess PID ps).2 = [] ∧ resizeCalls (findProcess PID ps).2 = [] := by
  induction ps with
  | nil => simp [findProcess, closeStdinCalls, resizeCalls]
  | cons p ps ih =>
    unfold findProcess
    split_ifs <;> simp [closeStdinCalls, resizeCalls, ih]

/-- The search loop finds nothing when no process has the id. -/
theorem findProcess_none (PID : String) (ps : List Process)
    (h : ∀ p ∈ ps, p.ID ≠ PID) : (findProcess PID ps).1 = none := by
  induction ps with
  | nil => rfl
  | cons p ps ih =>
    unfold findProcess
    have hp : p.ID ≠ PID := h p (List.mem_cons_self _ _)
    simp only [hp, if_false]
    exact ih fun q hq => h q (List.mem_cons_of_mem _ hq)

/-- The search loop stops at the first process that has the id. -/
theorem findProcess_first (PID : String) (pre : List Process) (p : Process)
    (post : List Process) (h : ∀ q ∈ pre, q.ID ≠ PID) (hp : p.ID = PID) :
    (findProcess PID (pre ++ p :: post)).1 = some p := by
  induction pre with
  | nil => simp [findProcess, hp]
  | cons q pre ih =>
    have hq : q.ID ≠ PID := h q (List.mem_cons_self _ _)
    simp only [List.cons_append, findProcess, hq, if_false]
    exact ih fun r hr => h r (List.mem_cons_of_mem _ hr)

/-- C8.  An update-process task on a registered container whose process list `ps` is
obtained.  When no process of `ps` has the task's process id, the handler returns
`ErrProcessNotFound` and calls neither `CloseStdin` nor `Resize`.  Otherwise, `p` being
the first process of `ps` with that id: `CloseStdin` is called (once, on `p`) exactly when
the task's `CloseStdin` flag is set; when that call fails its error is returned and
`Resize` is not called; when it did not fail, `Resize` is called (once, on `p`, with the
task's width and height) exactly when the width or the height is positive, and the
handler returns what `Resize` answered, or nil without a resize.  With width zero and
height zero `Resize` is never called. -/
theorem updateProcess_spec (s : Supervisor) (t : UpdateProcessTask) (i : containerInfo)
    (ps : List Process)
    (hreg : s.containers t.ID = some i)
    (hps : i.container.Processes = .ok ps) :
    ((∀ p ∈ ps, p.ID ≠ t.PID) →
      (s.updateProcess t).out = .returned (some .ErrProcessNotFound) ∧
      closeStdinCalls (s.updateProcess t).trace = [] ∧
      resizeCalls (s.updateProcess t).trace = []) ∧
    (∀ pre p post, ps = pre ++ p :: post → (∀ q ∈ pre, q.ID ≠ t.PID) → p.ID = t.PID →
      closeStdinCalls (s.updateProcess t).trace = (if t.CloseStdin = true then [p] else []) ∧
      (∀ err, t.CloseStdin = true → p.CloseStdin = some err →
        (s.updateProcess t).out = .returned (some (.external err)) ∧
        resizeCalls (s.updateProcess t).trace = []) ∧
      ((t.CloseStdin = true → p.CloseStdin = none) →
        resizeCalls (s.updateProcess t).trace
          = (if t.Width > 0 ∨ t.Height > 0 then [(p, t.Width, t.Height)] else []) ∧
        (s.updateProcess t).out
          = .returned (if t.Width > 0 ∨ t.Height > 0 then verbatim (p.Resize t.Width t.Height)
                       else none)) ∧
      (t.Width = 0 → t.Height = 0 → resizeCalls (s.updateProcess t).trace = [])) := by
  refine ⟨?_, ?_⟩
  · intro hno
    have h1 := findProcess_none t.PID ps hno
    have h2 := findProcess_trace t.PID ps
    unfold Supervisor.updateProcess
    simp [hreg, hps, h1, h2, closeStdinCalls, resizeCalls]
  · intro pre p post hsplit hpre hp
    have h1 : (findProcess t.PID ps).1 = some p := by
      rw [hsplit]; exact findProcess_first t.PID pre p post hpre hp
    have h2 := findProcess_trace t.PID ps
    refine ⟨?_, ?_, ?_, ?_⟩
    · unfold Supervisor.updateProcess
      simp only [hreg, hps, h1]
      by_cases hc : t.CloseStdin = true <;>
        by_cases hw : t.Width > 0 ∨ t.Height > 0 <;>
        cases hcs : p.CloseStdin <;>
        cases hrs : p.Resize t.Width t.Height <;>
        simp [hc, hw, hcs, hrs, closeStdinCalls, closeStdinCalls_append, h2]
    · intro err hc hcs
      unfold Supervisor.updateProcess
      simp [hreg, hps, h1, hc, hcs, resizeCalls, resizeCalls_append, h2]
    · intro hok
      unfold Supervisor.updateProcess
      simp only [hreg, hps, h1]
      by_cases hc : t.CloseStdin = true
      · have hcs := hok hc
        by_cases hw : t.Width > 0 ∨ t.Height > 0 <;>
          cases hrs : p.Resize t.Width t.Height <;>
          simp [hc, hw, hcs, hrs, verbatim, resizeCalls, resizeCalls_append, h2]
      · by_cases hw : t.Width > 0 ∨ t.Height > 0 <;>
          cases hrs : p.Resize t.Width t.Height <;>
          simp [hc, hw, hrs, verbatim, resizeCalls, resizeCalls_append, h2]
    · intro hw0 hh0
      unfold Supervisor.updateProcess
      simp only [hreg, hps, h1]
      by_cases hc : t.CloseStdin = true <;>
        cases hcs : p.CloseStdin <;>
        simp [hc, hcs, hw0, hh0, resizeCalls, resizeCalls_append, h2]

/-- Witness for C8 on the sample supervisor, whose container lists the processes
"init", "p1" (pid 4701), "p1" (pid 4702): a task for "p1" that closes stdin and carries
width 0 and height 0 closes the stdin of the first "p1" and does not resize. -/
theorem updateProcess_spec_witness :
    sampleSupervisor.containers (sampleUpdateProcessTask true 0 0).ID
      = some { container := sampleContainer } ∧
    closeStdinCalls (sampleSupervisor.updateProcess (sampleUpdateProcessTask true 0 0)).trace
      = [sampleProcess "p1" 4701] ∧
    resizeCalls (sampleSupervisor.updateProcess (sampleUpdateProcessTask true 0 0)).trace
      = [] :=
  ⟨rfl,
   ((updateProcess_spec sampleSupervisor (sampleUpdateProcessTask true 0 0)
      { container := sampleContainer } _ rfl rfl).2
      [sampleProcess "init" 4700] (sampleProcess "p1" 4701) [sampleProcess "p1" 4702] rfl
      (by decide) rfl).1,
   ((updateProcess_spec sampleSupervisor (sampleUpdateProcessTask true 0 0)
      { container := sampleContainer } _ rfl rfl).2
      [sampleProcess "init" 4700] (sampleProcess "p1" 4701) [sampleProcess "p1" 4702] rfl
      (by decide) rfl).2.2.2 rfl rfl⟩

/-! ## start -/

/-- C9.  A start task, `runtime.New` being called with the supervisor's state directory,
runtime arguments, shim and timeout, the task's id, bundle path, labels and no-pivot-root
flag, and the task's runtime or, when that is empty, the supervisor's.  When `runtime.New`
fails, `start` returns that error, the registry (and the supervisor) is unchanged and no
start record is dispatched.  When it yields a container, the registry afterwards maps the
task's id to that container and is unchanged at every other id, exactly one start record
is sent to the start workers, carrying that container, the task's stdin, stdout and stderr
paths, its `StartResponse` channel and its error channel, and `start` returns
`errDeferredResponse`, which is not nil. -/
theorem start_spec (s : Supervisor)
    (runtimeNew : ContainerOpts → Except ExternalError Container)
    (setTaskCheckpoint : StartTask → String) (clock : Nat → Nat) (t : StartTask) :
    (∀ err,
      runtimeNew
        { Root := s.stateDir, ID := t.ID, Bundle := t.BundlePath,
          Runtime := if t.Runtime ≠ "" then t.Runtime else s.runtime,
          RuntimeArgs := s.runtimeArgs, Shim := s.shim, Labels := t.Labels,
          NoPivotRoot := t.NoPivotRoot, Timeout := s.timeout } = .error err →
      (s.start runtimeNew setTaskCheckpoint clock t).out = .returned (some (.external err)) ∧
      (s.start runtimeNew setTaskCheckpoint clock t).sv.containers = s.containers ∧
      (s.start runtimeNew setTaskCheckpoint clock t).sv = s ∧
      startTasks (s.start runtimeNew setTaskCheckpoint clock t).trace = []) ∧
    (∀ c,
      runtimeNew
        { Root := s.stateDir, ID := t.ID, Bundle := t.BundlePath,
          Runtime := if t.Runtime ≠ "" then t.Runtime else s.runtime,
          RuntimeArgs := s.runtimeArgs, Shim := s.shim, Labels := t.Labels,
          NoPivotRoot := t.NoPivotRoot, Timeout := s.timeout } = .ok c →
      (s.start runtimeNew setTaskCheckpoint clock t).sv.containers t.ID
        = some { container := c } ∧
      (∀ k, k ≠ t.ID →
        (s.start runtimeNew setTaskCheckpoint clock t).sv.containers k = s.containers k) ∧
      startTasks (s.start runtimeNew setTaskCheckpoint clock t).trace
        = [{ Err := t.errCh, Container := c, StartResponse := t.StartResponse,
             Stdin := t.Stdin, Stdout := t.Stdout, Stderr := t.Stderr,
             CheckpointPath := setTaskCheckpoint t }] ∧
      (s.start runtimeNew setTaskCheckpoint clock t).out
        = .returned (some .errDeferredResponse) ∧
      (s.start runtimeNew setTaskCheckpoint clock t).out ≠ .returned none) := by
  refine ⟨?_, ?_⟩
  · intro err h
    unfold Supervisor.start
    simp only [h]
    simp [startTasks]
  · intro c h
    unfold Supervisor.start
    simp only [h]
    refine ⟨by simp, ?_, by simp [startTasks], by simp, by simp⟩
    intro k hk
    simp [hk]

/-- Witness for C9: starting "c9" on the sample supervisor registers the new container
next to "c1" and answers `errDeferredResponse`. -/
theorem start_spec_witness :
    (∃ c, sampleRuntimeNew
        { Root := "/run/containerd", ID := "c9", Bundle := "/b/c9", Runtime := "runc",
          RuntimeArgs := [], Shim := "containerd-shim", Labels := [],
          NoPivotRoot := false, Timeout := 15 } = .ok c) ∧
    (sampleSupervisor.start sampleRuntimeNew (fun _ => "") sampleClock
      (sampleStartTask "")).out = .returned (some .errDeferredResponse) ∧
    (sampleSupervisor.start sampleRuntimeNew (fun _ => "") sampleClock
      (sampleStartTask "")).sv.containers "c1" = sampleSupervisor.containers "c1" :=
  ⟨⟨_, rfl⟩,
   ((start_spec sampleSupervisor sampleRuntimeNew (fun _ => "") sampleClock
      (sampleStartTask "")).2 _ rfl).2.2.2.1,
   ((start_spec sampleSupervisor sampleRuntimeNew (fun _ => "") sampleClock
      (sampleStartTask "")).2 _ rfl).2.1 "c1" (by decide)⟩

/-! ## The runtime check with no override -/

/-- C10.  A task on a registered container whose `Runtime` field is empty.
(1) `addProcess` writes the supervisor's default runtime into the task and returns the
runtime-mismatch error "Expect runtime:<container's>, got:<default>" exactly when the
container's runtime differs from the default; then nothing is executed, and when the
runtimes agree (and the task has a process spec) the handler goes on to `Exec`.
(2) `updateContainer` does the same, making no pause, resume or resource call and
publishing no event on a mismatch.
(3) Every task the RPC handlers `AddProcess` and `UpdateContainer` send has an empty
`Runtime`.
(4) After a start task with a non-empty runtime override different from the default, for
which `runtime.New` yields a container reporting the runtime it was built with, a task
for that container id with an empty `Runtime` is answered by `addProcess` and by
`updateContainer` with the runtime-mismatch error. -/
theorem runtime_check_default (s : Supervisor) :
    (∀ (NewStdio : String → String → String → Stdio)
        (monitorProcess : Process → Option ExternalError) (clock : Nat → Nat)
        (t : AddProcessTask) (ci : containerInfo),
      s.containers t.ID = some ci → t.Runtime = "" →
      (s.addProcess NewStdio monitorProcess clock t).task.Runtime = s.runtime ∧
      ((s.addProcess NewStdio monitorProcess clock t).out
          = .returned (some (.Errorf
              ("Expect runtime:" ++ ci.container.Runtime ++ ", got:" ++ s.runtime)))
        ↔ ci.container.Runtime ≠ s.runtime) ∧
      (ci.container.Runtime ≠ s.runtime →
        execCalls (s.addProcess NewStdio monitorProcess clock t).trace = [] ∧
        events (s.addProcess NewStdio monitorProcess clock t).trace = []) ∧
      (ci.container.Runtime = s.runtime → ∀ spec, t.ProcessSpec = some spec →
        execCalls (s.addProcess NewStdio monitorProcess clock t).trace
          = [(ci.container, t.PID, spec, NewStdio t.Stdin t.Stdout t.Stderr)])) ∧
    (∀ (clock : Nat → Nat) (t : UpdateTask) (i : containerInfo),
      s.containers t.ID = some i → t.Runtime = "" →
      (s.updateContainer clock t).task.Runtime = s.runtime ∧
      ((s.updateContainer clock t).out
          = .returned (some (.Errorf
              ("Expect runtime:" ++ i.container.Runtime ++ ", got:" ++ s.runtime)))
        ↔ i.container.Runtime ≠ s.runtime) ∧
      (i.container.Runtime ≠ s.runtime →
        pauseCalls (s.updateContainer clock t).trace = [] ∧
        resumeCalls (s.updateContainer clock t).trace = [] ∧
        updateResourcesCalls (s.updateContainer clock t).trace = [] ∧
        events (s.updateContainer clock t).trace = [])) ∧
    (∀ SendTask setUser errCh ch sv r,
      ∀ e ∈ (apiServer.AddProcess SendTask setUser errCh ch sv r).sent, e.Runtime = "") ∧
    (∀ SendTask errCh sv r,
      ∀ e ∈ (apiServer.UpdateContainer SendTask errCh sv r).sent, e.Runtime = "") ∧
    (∀ (runtimeNew : ContainerOpts → Except ExternalError Container)
        (setTaskCheckpoint : StartTask → String) (clock0 : Nat → Nat) (t0 : StartTask)
        (c : Container),
      t0.Runtime ≠ "" → t0.Runtime ≠ s.runtime →
      runtimeNew
        { Root := s.stateDir, ID := t0.ID, Bundle := t0.BundlePath, Runtime := t0.Runtime,
          RuntimeArgs := s.runtimeArgs, Shim := s.shim, Labels := t0.Labels,
          NoPivotRoot := t0.NoPivotRoot, Timeout := s.timeout } = .ok c →
      c.Runtime = t0.Runtime →
      (∀ (NewStdio : String → String → String → Stdio)
          (monitorProcess : Process → Option ExternalError) (clock : Nat → Nat)
          (t : AddProcessTask), t.ID = t0.ID → t.Runtime = "" →
        ((s.start runtimeNew setTaskCheckpoint clock0 t0).sv.addProcess NewStdio
            monitorProcess clock t).out
          = .returned (some (.Errorf
              ("Expect runtime:" ++ t0.Runtime ++ ", got:" ++ s.runtime)))) ∧
      (∀ (clock : Nat → Nat) (t : UpdateTask), t.ID = t0.ID → t.Runtime = "" →
        ((s.start runtimeNew setTaskCheckpoint clock0 t0).sv.updateContainer clock t).out
          = .returned (some (.Errorf
              ("Expect runtime:" ++ t0.Runtime ++ ", got:" ++ s.runtime))))) := by
  refine ⟨?_, ?_, ?_, ?_, ?_⟩
  · intro f m clock t ci hreg hr
    refine ⟨?_, ?_, ?_, ?_⟩
    · unfold Supervisor.addProcess
      simp only [hreg, hr, if_true]
      split_ifs <;> (repeat' split) <;> rfl
    · by_cases h : ci.container.Runtime = s.runtime
      · unfold Supervisor.addProcess
        simp only [hreg, hr, if_true, h, ne_eq, not_true_eq_false, if_false, iff_false]
        repeat' split
        all_goals simp
      · unfold Supervisor.addProcess
        simp [hreg, hr, h, expectRuntimeMsg]
    · intro h
      unfold Supervisor.addProcess
      simp [hreg, hr, h, execCalls, events]
    · intro h spec hspec
      unfold Supervisor.addProcess
      simp only [hreg, hr, if_true, h, ne_eq, not_true_eq_false, if_false, hspec]
      repeat' split
      all_goals simp [execCalls]
  · intro clock t i hreg hr
    refine ⟨?_, ?_, ?_⟩
    · unfold Supervisor.updateContainer
      simp only [hreg, hr, if_true]
      split_ifs <;> (repeat' split) <;> rfl
    · by_cases h : i.container.Runtime = s.runtime
      · unfold Supervisor.updateContainer
        simp only [hreg, hr, if_true, h, ne_eq, not_true_eq_false, if_false, iff_false]
        split_ifs <;> (repeat' split) <;> simp [verbatim]
        all_goals (cases i.container.UpdateResources _ <;> simp)
      · unfold Supervisor.updateContainer
        simp [hreg, hr, h, expectRuntimeMsg]
    · intro h
      unfold Supervisor.updateContainer
      simp [hreg, hr, h, pauseCalls, resumeCalls, updateResourcesCalls, events]
  · intro SendTask setUser errCh ch sv r e he
    unfold apiServer.AddProcess at he
    simp only at he
    split_ifs at he
    · simp at he
    · simp at he
    · split at he <;> simp at he <;> simp [he]
  · intro SendTask errCh sv r e he
    unfold apiServer.UpdateContainer at he
    simp only at he
    split at he <;> simp at he <;> simp [he]
  · intro runtimeNew setCk clock0 t0 c hne hdiff hnew hc
    refine ⟨?_, ?_⟩
    · intro f m clock t hid hr
      unfold Supervisor.start
      simp only [hne, ne_eq, not_false_eq_true, if_true, hnew]
      unfold Supervisor.addProcess
      simp [hid, hr, hc, hdiff, expectRuntimeMsg]
    · intro clock t hid hr
      unfold Supervisor.start
      simp only [hne, ne_eq, not_false_eq_true, if_true, hnew]
      unfold Supervisor.updateContainer
      simp [hid, hr, hc, hdiff, expectRuntimeMsg]

/-- Witness for C10: "c9" is started on the sample supervisor (default runtime "runc")
with the runtime override "other"; an add-process task for "c9" without override is then
answered with "Expect runtime:other, got:runc". -/
theorem runtime_check_default_witness :
    (sampleStartTask "other").Runtime ≠ "" ∧
    (sampleStartTask "other").Runtime ≠ sampleSupervisor.runtime ∧
    ((sampleSupervisor.start sampleRuntimeNew (fun _ => "") sampleClock
        (sampleStartTask "other")).sv.addProcess sampleNewStdio sampleMonitor sampleClock
        { sampleAddProcessTask "" with ID := "c9" }).out
      = .returned (some (.Errorf "Expect runtime:other, got:runc")) :=
  ⟨by decide, by decide,
   ((runtime_check_default sampleSupervisor).2.2.2.2 sampleRuntimeNew (fun _ => "")
      sampleClock (sampleStartTask "other") _ (by decide) (by decide) rfl rfl).1
      sampleNewStdio sampleMonitor sampleClock { sampleAddProcessTask "" with ID := "c9" }
      rfl rfl⟩

end Containerd
